import Mathlib

/-!
# DS3231 real-time-clock driver

A shallow embedding of `Core/Src/ds3231_rtc_driver.c` and
`Core/Inc/ds3231_rtc_driver.h`.

Conventions of the embedding:

* `uint8_t`, `uint16_t` and `unsigned int` values are natural numbers; every
  conversion to a narrower type that the C code performs is written as an
  explicit `% 2 ^ w`.  Signed `int` intermediates are integers.
* The I2C peripheral is an explicit state (`I2C_HandleTypeDef`) threaded
  through every driver function: a register file, the list of transactions
  issued so far, and the status the transport gives to each transaction.
* Output parameters (`RTC_DateTime *`, `float *`, `RTC_Handle *`) are passed
  in and returned.
-/

namespace DS3231

/-! ## Constants of `ds3231_rtc_driver.h` -/

/-- The macro `DS3231_I2C_ADDR`, `0x68U << 1`. -/
def DS3231_I2C_ADDR : Nat := 0x68 <<< 1

/-- The macro `DS3231_REG_SECONDS`. -/
def DS3231_REG_SECONDS : Nat := 0x00

/-- The macro `DS3231_REG_CONTROL`. -/
def DS3231_REG_CONTROL : Nat := 0x0E

/-- The macro `DS3231_REG_STATUS`. -/
def DS3231_REG_STATUS : Nat := 0x0F

/-- The macro `DS3231_REG_TEMP_MSB`. -/
def DS3231_REG_TEMP_MSB : Nat := 0x11

/-- The macro `DS3231_REG_TEMP_LSB`. -/
def DS3231_REG_TEMP_LSB : Nat := 0x12

/-- The struct `RTC_DateTime`: six `uint8_t` fields and the `uint16_t` year. -/
structure RTC_DateTime where
  seconds : Nat
  minutes : Nat
  hours : Nat
  day : Nat
  date : Nat
  month : Nat
  year : Nat
  deriving DecidableEq, Repr

/-- The struct `RTC_Handle`.  Its `hi2c` pointer is the bus state that the
driver functions receive and return; the `uint8_t address` is kept here. -/
structure RTC_Handle where
  address : Nat
  deriving DecidableEq, Repr

/-! ## The I2C transport (`stm32f0xx_hal.h`, not part of the repository) -/

/-- Modelled from the spec: the result type of the transport calls, declared in
the HAL header `stm32f0xx_hal.h` that the driver includes.  The spec speaks of
success and failure; the failure kinds are error, busy and timeout. -/
inductive HAL_StatusTypeDef where
  | HAL_OK
  | HAL_ERROR
  | HAL_BUSY
  | HAL_TIMEOUT
  deriving DecidableEq, Repr

/-- One transaction issued on the bus, with the arguments the driver gave. -/
inductive I2C_Txn where
  | isDeviceReady (devAddress trials timeout : Nat)
  | memRead (devAddress memAddress memAddSize size timeout : Nat)
  | memWrite (devAddress memAddress memAddSize : Nat) (data : List Nat) (timeout : Nat)
  deriving DecidableEq, Repr

/-- Modelled from the spec: the state behind the transport handle that the HAL
header declares.  `regs` is the register file of the addressed chip,
`log` the transactions issued so far (oldest first), and `outcome k` the
status the transport reports for the `k`-th transaction (counted from 0). -/
structure I2C_HandleTypeDef where
  regs : Nat → Nat
  outcome : Nat → HAL_StatusTypeDef
  log : List I2C_Txn

/-- The `size` bytes found at consecutive register addresses from `memAddress`. -/
def readRegs (regs : Nat → Nat) (memAddress : Nat) : Nat → List Nat
  | 0 => []
  | size + 1 => regs memAddress % 256 :: readRegs regs (memAddress + 1) size

/-- The register file after `data` is stored at consecutive addresses from
`memAddress`. -/
def writeRegs (regs : Nat → Nat) (memAddress : Nat) (data : List Nat) : Nat → Nat :=
  fun r =>
    if memAddress ≤ r ∧ r < memAddress + data.length then data.getD (r - memAddress) 0
    else regs r

/-- Modelled from the spec: `IsDeviceReady(address, retries, timeout_ms)`, the
presence check of the transport.  It transfers no register data. -/
def HAL_I2C_IsDeviceReady (hi2c : I2C_HandleTypeDef) (devAddress trials timeout : Nat) :
    HAL_StatusTypeDef × I2C_HandleTypeDef :=
  (hi2c.outcome hi2c.log.length,
   { hi2c with log := hi2c.log ++ [I2C_Txn.isDeviceReady devAddress trials timeout] })

/-- Modelled from the spec: `MemRead(address, register, register_size, buffer,
length, timeout_ms)`.  On success the buffer receives the register bytes; on
failure the buffer `pData` is returned as it was. -/
def HAL_I2C_Mem_Read (hi2c : I2C_HandleTypeDef) (devAddress memAddress memAddSize : Nat)
    (pData : List Nat) (size timeout : Nat) :
    HAL_StatusTypeDef × List Nat × I2C_HandleTypeDef :=
  let st := hi2c.outcome hi2c.log.length
  let hi2c1 : I2C_HandleTypeDef :=
    { hi2c with
      log := hi2c.log ++ [I2C_Txn.memRead devAddress memAddress memAddSize size timeout] }
  if st = HAL_StatusTypeDef.HAL_OK then (st, readRegs hi2c.regs memAddress size, hi2c1)
  else (st, pData, hi2c1)

/-- Modelled from the spec: `MemWrite(address, register, register_size, buffer,
length, timeout_ms)`.  On success the first `size` bytes of the buffer are
stored in the register file; on failure the register file is unchanged. -/
def HAL_I2C_Mem_Write (hi2c : I2C_HandleTypeDef) (devAddress memAddress memAddSize : Nat)
    (pData : List Nat) (size timeout : Nat) : HAL_StatusTypeDef × I2C_HandleTypeDef :=
  let st := hi2c.outcome hi2c.log.length
  let log1 :=
    hi2c.log ++ [I2C_Txn.memWrite devAddress memAddress memAddSize (pData.take size) timeout]
  if st = HAL_StatusTypeDef.HAL_OK then
    (st, { hi2c with regs := writeRegs hi2c.regs memAddress (pData.take size), log := log1 })
  else (st, { hi2c with log := log1 })

/-! ## `ds3231_rtc_driver.c` -/

/-- The table `DAY_NAMES`. -/
def DAY_NAMES : List String :=
  ["Sunday", "Monday", "Tuesday", "Wednesday", "Thursday", "Friday", "Saturday"]

/-- The function `BCD_To_Decimal`: `((bcd >> 4U) * 10U) + (bcd & 0x0FU)`,
computed in `unsigned int` and converted to the `uint8_t` return type. -/
def BCD_To_Decimal (bcd : Nat) : Nat :=
  (((bcd >>> 4) * 10) + (bcd &&& 0x0F)) % 256

/-- The function `Decimal_To_BCD`: `((decimal / 10U) << 4U) | (decimal % 10U)`,
computed in `unsigned int` and converted to the `uint8_t` return type. -/
def Decimal_To_BCD (decimal : Nat) : Nat :=
  (((decimal / 10) <<< 4) ||| (decimal % 10)) % 256

/-- Conversion of an `int` to `uint8_t`. -/
def toUInt8 (i : Int) : Nat := (i % 256).toNat

/-- Conversion of an `int` to `int16_t`: the value modulo 2 ^ 16, read as a
signed 16-bit number. -/
def toInt16 (i : Int) : Int :=
  if i % 65536 < 32768 then i % 65536 else i % 65536 - 65536

/-- The function `RTC_Init`.  `status0` is the indeterminate initial content of
the local `uint8_t status`.  The results of the status read and of the status
write are not inspected by the code. -/
def RTC_Init (hi2c : I2C_HandleTypeDef) (status0 : Nat) :
    HAL_StatusTypeDef × RTC_Handle × I2C_HandleTypeDef :=
  let hrtc : RTC_Handle := { address := DS3231_I2C_ADDR % 256 }
  let ready := HAL_I2C_IsDeviceReady hi2c hrtc.address 3 100
  if ready.1 ≠ HAL_StatusTypeDef.HAL_OK then
    (HAL_StatusTypeDef.HAL_ERROR, hrtc, ready.2)
  else
    let rd := HAL_I2C_Mem_Read ready.2 hrtc.address DS3231_REG_STATUS 1 [status0] 1 100
    let status := rd.2.1.getD 0 0
    -- `status &= ~0x80`: `~0x80` is the 32-bit pattern 0xFFFFFF7F
    let status := (status &&& 0xFFFFFF7F) % 256
    let wr := HAL_I2C_Mem_Write rd.2.2 hrtc.address DS3231_REG_STATUS 1 [status] 1 100
    (HAL_StatusTypeDef.HAL_OK, hrtc, wr.2)

/-- The buffer `data[7]` that `RTC_SetDateTime` fills.  `datetime->year - 2000`
is an `int`, converted to the `uint8_t` parameter of `Decimal_To_BCD`. -/
def RTC_SetDateTime_data (datetime : RTC_DateTime) : List Nat :=
  [ Decimal_To_BCD datetime.seconds,
    Decimal_To_BCD datetime.minutes,
    Decimal_To_BCD datetime.hours,
    datetime.day,
    Decimal_To_BCD datetime.date,
    Decimal_To_BCD datetime.month,
    Decimal_To_BCD (toUInt8 ((datetime.year : Int) - 2000)) ]

/-- The function `RTC_SetDateTime`. -/
def RTC_SetDateTime (hi2c : I2C_HandleTypeDef) (hrtc : RTC_Handle) (datetime : RTC_DateTime) :
    HAL_StatusTypeDef × I2C_HandleTypeDef :=
  let data := RTC_SetDateTime_data datetime
  HAL_I2C_Mem_Write hi2c hrtc.address DS3231_REG_SECONDS 1 data 7 100

/-- The assignments of `RTC_GetDateTime` after a successful read into `data`.
The year is `BCD_To_Decimal(data[6]) + 2000`, an `int` stored in `uint16_t`. -/
def RTC_GetDateTime_decode (data : List Nat) : RTC_DateTime :=
  { seconds := BCD_To_Decimal (data.getD 0 0 &&& 0x7F),
    minutes := BCD_To_Decimal (data.getD 1 0 &&& 0x7F),
    hours := BCD_To_Decimal (data.getD 2 0 &&& 0x3F),
    day := data.getD 3 0 &&& 0x07,
    date := BCD_To_Decimal (data.getD 4 0 &&& 0x3F),
    month := BCD_To_Decimal (data.getD 5 0 &&& 0x1F),
    year := (BCD_To_Decimal (data.getD 6 0) + 2000) % 65536 }

/-- The function `RTC_GetDateTime`.  `datetime` is the caller's struct before
the call.  The local buffer is only read after a successful transfer has
filled it, so its initial content is immaterial. -/
def RTC_GetDateTime (hi2c : I2C_HandleTypeDef) (hrtc : RTC_Handle) (datetime : RTC_DateTime) :
    HAL_StatusTypeDef × RTC_DateTime × I2C_HandleTypeDef :=
  let rd := HAL_I2C_Mem_Read hi2c hrtc.address DS3231_REG_SECONDS 1 (List.replicate 7 0) 7 100
  if rd.1 ≠ HAL_StatusTypeDef.HAL_OK then
    (HAL_StatusTypeDef.HAL_ERROR, datetime, rd.2.2)
  else
    (HAL_StatusTypeDef.HAL_OK, RTC_GetDateTime_decode rd.2.1, rd.2.2)

/-- The value `temp / 256.0f` of `RTC_GetTemperature`, where
`int16_t temp = (data[0U] << 8U) | data[1U]`.  An `int16_t` divided by 256 is
exactly representable in binary32 (16 significant bits, exponent shift of 8),
so the `float` result is this rational number. -/
def RTC_GetTemperature_value (data : List Nat) : ℚ :=
  let temp : Int := toInt16 (((data.getD 0 0 <<< 8) ||| data.getD 1 0 : Nat) : Int)
  (temp : ℚ) / 256

/-- The function `RTC_GetTemperature`.  `temperature` is the caller's value
before the call. -/
def RTC_GetTemperature (hi2c : I2C_HandleTypeDef) (hrtc : RTC_Handle) (temperature : ℚ) :
    HAL_StatusTypeDef × ℚ × I2C_HandleTypeDef :=
  let rd := HAL_I2C_Mem_Read hi2c hrtc.address DS3231_REG_TEMP_MSB 1 (List.replicate 2 0) 2 100
  if rd.1 ≠ HAL_StatusTypeDef.HAL_OK then
    (HAL_StatusTypeDef.HAL_ERROR, temperature, rd.2.2)
  else
    (HAL_StatusTypeDef.HAL_OK, RTC_GetTemperature_value rd.2.1, rd.2.2)

/-- The function `RTC_GetDayName`.  The index `day - 1U` is computed in
`unsigned int`; the table access yields `none` when it is out of bounds. -/
def RTC_GetDayName (day : Nat) : Option String :=
  if day ≥ 1 ∧ day ≤ 7 then DAY_NAMES[(day + 4294967296 - 1) % 4294967296]?
  else some "Unknown"

/-- The conversion `%0wd` of the C library function `sprintf`, for a
non-negative `int` argument: the decimal digits of `value`, preceded by as many
zeros as are needed to reach `width` characters. -/
def fmt0d (width value : Nat) : List Char :=
  let digits := Nat.toDigits 10 value
  List.replicate (width - digits.length) '0' ++ digits

/-- The function `RTC_FormatTime`: the characters that
`sprintf(buffer, "%02d:%02d:%02d", hours, minutes, seconds)` stores in `buffer`
before the terminating NUL. -/
def RTC_FormatTime (datetime : RTC_DateTime) : String :=
  String.mk (fmt0d 2 datetime.hours ++ [':'] ++ fmt0d 2 datetime.minutes ++ [':'] ++
    fmt0d 2 datetime.seconds)

/-- The function `RTC_FormatDate`: the characters that
`sprintf(buffer, "%02d/%02d/%04d", date, month, year)` stores in `buffer`
before the terminating NUL. -/
def RTC_FormatDate (datetime : RTC_DateTime) : String :=
  String.mk (fmt0d 2 datetime.date ++ ['/'] ++ fmt0d 2 datetime.month ++ ['/'] ++
    fmt0d 4 datetime.year)

/-- The function `RTC_FormatDateTime`: the date, a blank and the time. -/
def RTC_FormatDateTime (datetime : RTC_DateTime) : String :=
  String.mk (fmt0d 2 datetime.date ++ ['/'] ++ fmt0d 2 datetime.month ++ ['/'] ++
    fmt0d 4 datetime.year ++ [' '] ++ fmt0d 2 datetime.hours ++ [':'] ++
    fmt0d 2 datetime.minutes ++ [':'] ++ fmt0d 2 datetime.seconds)

/-- The character of a decimal digit `k` (0..9). -/
def digitChar (k : Nat) : Char := Char.ofNat (48 + k)

/-! ## Example buses -/

/-- A bus whose registers 0, 1, 2, ... hold the bytes of `image` (0 beyond
them), on which every transaction succeeds and none has been issued yet. -/
def imageBus (image : List Nat) : I2C_HandleTypeDef :=
  { regs := fun r => image.getD r 0,
    outcome := fun _ => HAL_StatusTypeDef.HAL_OK,
    log := [] }

/-- A bus whose temperature registers hold `msb` and `lsb`, on which every
transaction succeeds. -/
def tempBus (msb lsb : Nat) : I2C_HandleTypeDef :=
  { regs := fun r => if r = DS3231_REG_TEMP_MSB then msb
                     else if r = DS3231_REG_TEMP_LSB then lsb else 0,
    outcome := fun _ => HAL_StatusTypeDef.HAL_OK,
    log := [] }

/-- A bus on which no device answers: every transaction times out. -/
def absentBus (image : List Nat) : I2C_HandleTypeDef :=
  { regs := fun r => image.getD r 0,
    outcome := fun _ => HAL_StatusTypeDef.HAL_TIMEOUT,
    log := [] }

/-- A bus whose status register holds `s`, on which every transaction
succeeds. -/
def statusBus (s : Nat) : I2C_HandleTypeDef :=
  { regs := fun r => if r = DS3231_REG_STATUS then s else 0,
    outcome := fun _ => HAL_StatusTypeDef.HAL_OK,
    log := [] }

/-- A bus whose status register holds `s` and whose transactions receive, in
order, the statuses listed in `outcomes` (success once the list is used up). -/
def scriptBus (s : Nat) (outcomes : List HAL_StatusTypeDef) : I2C_HandleTypeDef :=
  { regs := fun r => if r = DS3231_REG_STATUS then s else 0,
    outcome := fun k => outcomes.getD k HAL_StatusTypeDef.HAL_OK,
    log := [] }

/-! # Theorems -/


/-! ## Auxiliary facts on bytes -/

set_option maxRecDepth 100000 in
theorem BCD_To_Decimal_le : ∀ b, b < 256 → BCD_To_Decimal b ≤ 165 := by
  decide

set_option maxRecDepth 100000 in
theorem BCD_Decimal_BCD_aux : ∀ d, d < 100 →
    BCD_To_Decimal (Decimal_To_BCD d) = d ∧ Decimal_To_BCD d < 256 := by
  decide

set_option maxRecDepth 100000 in
theorem Decimal_BCD_Decimal_aux : ∀ b, b < 256 → b >>> 4 ≤ 9 → b &&& 0x0F ≤ 9 →
    Decimal_To_BCD (BCD_To_Decimal b) = b := by
  decide

theorem lt_of_shiftRight_le (b : Nat) (h : b >>> 4 ≤ 9) : b < 160 := by
  rw [Nat.shiftRight_eq_div_pow] at h
  omega

theorem toUInt8_sub_2000 (y : Nat) (h1 : 2000 ≤ y) (h2 : y < 2256) :
    toUInt8 ((y : Int) - 2000) = y - 2000 := by
  unfold toUInt8
  omega

set_option maxRecDepth 100000 in
theorem decode_encode_7F : ∀ d, d < 60 → BCD_To_Decimal (Decimal_To_BCD d &&& 0x7F) = d := by
  decide

set_option maxRecDepth 100000 in
theorem decode_encode_3F : ∀ d, d < 32 → BCD_To_Decimal (Decimal_To_BCD d &&& 0x3F) = d := by
  decide

set_option maxRecDepth 100000 in
theorem decode_encode_1F : ∀ d, d < 13 → BCD_To_Decimal (Decimal_To_BCD d &&& 0x1F) = d := by
  decide

theorem and_07_of_le : ∀ d, d < 8 → d &&& 0x07 = d := by
  decide

set_option maxRecDepth 100000 in
theorem and_mask_of_clear : ∀ b, b < 256 →
    (b &&& 0x80 = 0 → b &&& 0x7F = b) ∧ (b &&& 0xC0 = 0 → b &&& 0x3F = b) ∧
    (b &&& 0xE0 = 0 → b &&& 0x1F = b) := by
  decide

/-- The buffer of a successful 7-byte read consists of the seven register bytes. -/
theorem readRegs_seven (regs : Nat → Nat) (a : Nat) :
    readRegs regs a 7 =
      [regs a % 256, regs (a + 1) % 256, regs (a + 2) % 256, regs (a + 3) % 256,
       regs (a + 4) % 256, regs (a + 5) % 256, regs (a + 6) % 256] := by
  simp [readRegs]

/-- Every write transaction appends exactly one entry to the log. -/
theorem HAL_I2C_Mem_Write_log (hi2c : I2C_HandleTypeDef) (a m s : Nat) (d : List Nat)
    (n t : Nat) :
    (HAL_I2C_Mem_Write hi2c a m s d n t).2.log =
      hi2c.log ++ [I2C_Txn.memWrite a m s (d.take n) t] := by
  by_cases h : hi2c.outcome hi2c.log.length = HAL_StatusTypeDef.HAL_OK <;>
    simp [HAL_I2C_Mem_Write, h]

/-! ## The BCD conversions -/

/-- C1: for every d in 0..99, converting d to BCD and back gives d, both
conversions producing 8-bit unsigned values. -/
theorem C1_BCD_To_Decimal_Decimal_To_BCD (d : Nat) (hd : d ≤ 99) :
    BCD_To_Decimal (Decimal_To_BCD d) = d ∧ Decimal_To_BCD d < 256 ∧
      BCD_To_Decimal (Decimal_To_BCD d) < 256 := by
  have h := BCD_Decimal_BCD_aux d (by omega)
  refine ⟨h.1, h.2, ?_⟩
  rw [h.1]
  omega

theorem C1_witness :
    BCD_To_Decimal (Decimal_To_BCD 59) = 59 ∧ Decimal_To_BCD 59 < 256 ∧
      BCD_To_Decimal (Decimal_To_BCD 59) < 256 :=
  C1_BCD_To_Decimal_Decimal_To_BCD 59 (by decide)

/-- C2: for every byte whose high and low nibbles are both in 0..9, converting
it from BCD to decimal and back to BCD gives the same byte. -/
theorem C2_Decimal_To_BCD_BCD_To_Decimal (b : Nat) (hb : b < 256)
    (hhi : b >>> 4 ≤ 9) (hlo : b &&& 0x0F ≤ 9) :
    Decimal_To_BCD (BCD_To_Decimal b) = b :=
  Decimal_BCD_Decimal_aux b hb hhi hlo

theorem C2_witness : Decimal_To_BCD (BCD_To_Decimal 0x59) = 0x59 :=
  C2_Decimal_To_BCD_BCD_To_Decimal 0x59 (by decide) (by decide) (by decide)

/-! ## Reading and writing the date and time -/

/-- C3: when the transport read of 7 bytes at register 0x00 succeeds,
RTC_GetDateTime returns HAL_OK and the fields are decoded from the register
bytes r0..r6 with the masks 0x7F, 0x7F, 0x3F, 0x07, 0x3F, 0x1F and the year
is BCD_To_Decimal(r6) + 2000; the bytes 30 45 12 03 15 06 24 (hex) decode to
12:45:30, weekday 3, 15/06/2024. -/
theorem C3_RTC_GetDateTime_decodes (hi2c : I2C_HandleTypeDef) (hrtc : RTC_Handle)
    (datetime : RTC_DateTime)
    (hok : hi2c.outcome hi2c.log.length = HAL_StatusTypeDef.HAL_OK) :
    (RTC_GetDateTime hi2c hrtc datetime).1 = HAL_StatusTypeDef.HAL_OK ∧
    (RTC_GetDateTime hi2c hrtc datetime).2.1 =
      { seconds := BCD_To_Decimal (hi2c.regs 0 % 256 &&& 0x7F),
        minutes := BCD_To_Decimal (hi2c.regs 1 % 256 &&& 0x7F),
        hours := BCD_To_Decimal (hi2c.regs 2 % 256 &&& 0x3F),
        day := hi2c.regs 3 % 256 &&& 0x07,
        date := BCD_To_Decimal (hi2c.regs 4 % 256 &&& 0x3F),
        month := BCD_To_Decimal (hi2c.regs 5 % 256 &&& 0x1F),
        year := BCD_To_Decimal (hi2c.regs 6 % 256) + 2000 } ∧
    (RTC_GetDateTime hi2c hrtc datetime).2.2.log =
      hi2c.log ++ [I2C_Txn.memRead hrtc.address 0x00 1 7 100] ∧
    RTC_GetDateTime_decode [0x30, 0x45, 0x12, 0x03, 0x15, 0x06, 0x24] =
      { seconds := 30, minutes := 45, hours := 12, day := 3, date := 15, month := 6,
        year := 2024 } := by
  have hy := BCD_To_Decimal_le (hi2c.regs 6 % 256) (Nat.mod_lt _ (by decide))
  have hmod : (BCD_To_Decimal (hi2c.regs 6 % 256) + 2000) % 65536 =
      BCD_To_Decimal (hi2c.regs 6 % 256) + 2000 := Nat.mod_eq_of_lt (by omega)
  refine ⟨?_, ?_, ?_, by decide⟩
  · simp [RTC_GetDateTime, HAL_I2C_Mem_Read, hok]
  · simp [RTC_GetDateTime, HAL_I2C_Mem_Read, hok, readRegs_seven, RTC_GetDateTime_decode,
      DS3231_REG_SECONDS, hmod]
  · simp [RTC_GetDateTime, HAL_I2C_Mem_Read, hok, DS3231_REG_SECONDS]


theorem C3_witness :
    (RTC_GetDateTime (imageBus [0x30, 0x45, 0x12, 0x03, 0x15, 0x06, 0x24])
        { address := 0xD0 } (RTC_DateTime.mk 0 0 0 0 0 0 0)).2.1 =
      { seconds := 30, minutes := 45, hours := 12, day := 3, date := 15, month := 6,
        year := 2024 } :=
  (C3_RTC_GetDateTime_decodes (imageBus [0x30, 0x45, 0x12, 0x03, 0x15, 0x06, 0x24])
    { address := 0xD0 } (RTC_DateTime.mk 0 0 0 0 0 0 0) rfl).2.1

/-- C4: for every DateTime with year in 2000..2099, RTC_SetDateTime hands the
transport the 7 bytes BCD(seconds), BCD(minutes), BCD(hours), weekday
unmodified, BCD(day of month), BCD(month), BCD(year - 2000), in this order, in
one write at register 0x00; 12:45:30, weekday 3, 15/06/2024 is encoded as
30 45 12 03 15 06 24 (hex). -/
theorem C4_RTC_SetDateTime_bytes (hi2c : I2C_HandleTypeDef) (hrtc : RTC_Handle)
    (datetime : RTC_DateTime) (hlo : 2000 ≤ datetime.year) (hhi : datetime.year ≤ 2099) :
    (RTC_SetDateTime hi2c hrtc datetime).2.log =
      hi2c.log ++ [I2C_Txn.memWrite hrtc.address 0x00 1
        [Decimal_To_BCD datetime.seconds, Decimal_To_BCD datetime.minutes,
         Decimal_To_BCD datetime.hours, datetime.day, Decimal_To_BCD datetime.date,
         Decimal_To_BCD datetime.month, Decimal_To_BCD (datetime.year - 2000)] 100] ∧
    RTC_SetDateTime_data
        { seconds := 30, minutes := 45, hours := 12, day := 3, date := 15, month := 6,
          year := 2024 } =
      [0x30, 0x45, 0x12, 0x03, 0x15, 0x06, 0x24] := by
  have hy := toUInt8_sub_2000 datetime.year hlo (by omega)
  refine ⟨?_, by decide⟩
  simp [RTC_SetDateTime, HAL_I2C_Mem_Write_log, RTC_SetDateTime_data, DS3231_REG_SECONDS, hy]

theorem C4_witness :
    (RTC_SetDateTime (imageBus []) { address := 0xD0 }
        (RTC_DateTime.mk 30 45 12 3 15 6 2024)).2.log =
      [I2C_Txn.memWrite 0xD0 0x00 1 [0x30, 0x45, 0x12, 0x03, 0x15, 0x06, 0x24] 100] :=
  (C4_RTC_SetDateTime_bytes (imageBus []) { address := 0xD0 }
    (RTC_DateTime.mk 30 45 12 3 15 6 2024) (by decide) (by decide)).1

/-- C5: for every DateTime with seconds and minutes in 0..59, hours in 0..23,
weekday in 1..7, day of month in 1..31, month in 1..12 and year in 2000..2099,
decoding as RTC_GetDateTime does the 7 bytes that RTC_SetDateTime writes gives
back the same DateTime. -/
theorem C5_decode_encode (datetime : RTC_DateTime)
    (hs : datetime.seconds ≤ 59) (hm : datetime.minutes ≤ 59) (hh : datetime.hours ≤ 23)
    (hw : 1 ≤ datetime.day ∧ datetime.day ≤ 7)
    (hd : 1 ≤ datetime.date ∧ datetime.date ≤ 31)
    (hmo : 1 ≤ datetime.month ∧ datetime.month ≤ 12)
    (hy : 2000 ≤ datetime.year ∧ datetime.year ≤ 2099) :
    RTC_GetDateTime_decode (RTC_SetDateTime_data datetime) = datetime := by
  obtain ⟨s, m, h, w, d, mo, y⟩ := datetime
  simp only at hs hm hh hw hd hmo hy
  have e0 := decode_encode_7F s (by omega)
  have e1 := decode_encode_7F m (by omega)
  have e2 := decode_encode_3F h (by omega)
  have e3 := and_07_of_le w (by omega)
  have e4 := decode_encode_3F d (by omega)
  have e5 := decode_encode_1F mo (by omega)
  have e6 := (BCD_Decimal_BCD_aux (y - 2000) (by omega)).1
  have e7 := toUInt8_sub_2000 y hy.1 (by omega)
  have e8 : (y - 2000 + 2000) % 65536 = y := by omega
  simp [RTC_GetDateTime_decode, RTC_SetDateTime_data, e0, e1, e2, e3, e4, e5, e6, e7, e8]

theorem C5_witness :
    RTC_GetDateTime_decode (RTC_SetDateTime_data (RTC_DateTime.mk 59 0 23 7 31 12 2099)) =
      RTC_DateTime.mk 59 0 23 7 31 12 2099 :=
  C5_decode_encode (RTC_DateTime.mk 59 0 23 7 31 12 2099) (by decide) (by decide) (by decide)
    (by decide) (by decide) (by decide) (by decide)

/-- C6: for every 7-byte register image whose BCD bytes (seconds, minutes,
hours, date, month, year) have both nibbles in 0..9, whose non-data bits are
zero (bit 7 of seconds and minutes, bits 6-7 of hours and date, bits 5-7 of
month) and whose weekday byte is in 0..7, encoding as RTC_SetDateTime does the
DateTime that RTC_GetDateTime decodes from the image gives the same 7 bytes. -/
theorem C6_encode_decode (r0 r1 r2 r3 r4 r5 r6 : Nat)
    (h0 : r0 >>> 4 ≤ 9 ∧ r0 &&& 0x0F ≤ 9) (h1 : r1 >>> 4 ≤ 9 ∧ r1 &&& 0x0F ≤ 9)
    (h2 : r2 >>> 4 ≤ 9 ∧ r2 &&& 0x0F ≤ 9) (h4 : r4 >>> 4 ≤ 9 ∧ r4 &&& 0x0F ≤ 9)
    (h5 : r5 >>> 4 ≤ 9 ∧ r5 &&& 0x0F ≤ 9) (h6 : r6 >>> 4 ≤ 9 ∧ r6 &&& 0x0F ≤ 9)
    (z0 : r0 &&& 0x80 = 0) (z1 : r1 &&& 0x80 = 0) (z2 : r2 &&& 0xC0 = 0)
    (z4 : r4 &&& 0xC0 = 0) (z5 : r5 &&& 0xE0 = 0) (h3 : r3 ≤ 7) :
    RTC_SetDateTime_data (RTC_GetDateTime_decode [r0, r1, r2, r3, r4, r5, r6]) =
      [r0, r1, r2, r3, r4, r5, r6] := by
  have b0 := lt_of_shiftRight_le r0 h0.1
  have b1 := lt_of_shiftRight_le r1 h1.1
  have b2 := lt_of_shiftRight_le r2 h2.1
  have b4 := lt_of_shiftRight_le r4 h4.1
  have b5 := lt_of_shiftRight_le r5 h5.1
  have b6 := lt_of_shiftRight_le r6 h6.1
  have m0 := (and_mask_of_clear r0 (by omega)).1 z0
  have m1 := (and_mask_of_clear r1 (by omega)).1 z1
  have m2 := (and_mask_of_clear r2 (by omega)).2.1 z2
  have m3 := and_07_of_le r3 (by omega)
  have m4 := (and_mask_of_clear r4 (by omega)).2.1 z4
  have m5 := (and_mask_of_clear r5 (by omega)).2.2 z5
  have e0 := Decimal_BCD_Decimal_aux r0 (by omega) h0.1 h0.2
  have e1 := Decimal_BCD_Decimal_aux r1 (by omega) h1.1 h1.2
  have e2 := Decimal_BCD_Decimal_aux r2 (by omega) h2.1 h2.2
  have e4 := Decimal_BCD_Decimal_aux r4 (by omega) h4.1 h4.2
  have e5 := Decimal_BCD_Decimal_aux r5 (by omega) h5.1 h5.2
  have e6 := Decimal_BCD_Decimal_aux r6 (by omega) h6.1 h6.2
  have hy := BCD_To_Decimal_le r6 (by omega)
  have e7 : (BCD_To_Decimal r6 + 2000) % 65536 = BCD_To_Decimal r6 + 2000 :=
    Nat.mod_eq_of_lt (by omega)
  have e8 := toUInt8_sub_2000 (BCD_To_Decimal r6 + 2000) (by omega) (by omega)
  have e9 : BCD_To_Decimal r6 + 2000 - 2000 = BCD_To_Decimal r6 := by omega
  simp only [RTC_GetDateTime_decode, RTC_SetDateTime_data, List.getD_cons_zero,
    List.getD_cons_succ, m0, m1, m2, m3, m4, m5, e0, e1, e2, e4, e5, e7, e8, e9, e6]

theorem C6_witness :
    RTC_SetDateTime_data
        (RTC_GetDateTime_decode [0x59, 0x00, 0x23, 0x07, 0x31, 0x12, 0x99]) =
      [0x59, 0x00, 0x23, 0x07, 0x31, 0x12, 0x99] :=
  C6_encode_decode 0x59 0x00 0x23 0x07 0x31 0x12 0x99 (by decide) (by decide) (by decide)
    (by decide) (by decide) (by decide) (by decide) (by decide) (by decide) (by decide)
    (by decide) (by decide)

/-! ## Temperature -/

/-- Conversion to `int16_t` of a value that fits in 16 bits. -/
theorem toInt16_of_lt (n : Nat) (h : n < 65536) :
    toInt16 (n : Int) = if n < 32768 then (n : Int) else (n : Int) - 65536 := by
  unfold toInt16
  have hmod : (n : Int) % 65536 = (n : Int) := by omega
  rw [hmod]
  by_cases h1 : n < 32768
  · have h2 : (n : Int) < 32768 := by omega
    rw [if_pos h1, if_pos h2]
  · have h2 : ¬ (n : Int) < 32768 := by omega
    rw [if_neg h1, if_neg h2]

/-- The expression `(msb << 8) | lsb` on a byte `lsb`. -/
theorem shiftLeft_8_or (msb lsb : Nat) (hl : lsb < 256) :
    (msb <<< 8) ||| lsb = msb * 256 + lsb := by
  have h := @Nat.mul_add_lt_is_or 8 lsb (by omega) msb
  rw [Nat.shiftLeft_eq, Nat.mul_comm msb (2 ^ 8), ← h]

/-- The temperature computed from two bytes, with the bit operations of the
code replaced by arithmetic. -/
theorem RTC_GetTemperature_value_eq (msb lsb : Nat) (hm : msb < 256) (hl : lsb < 256) :
    RTC_GetTemperature_value [msb, lsb] =
      ((if msb * 256 + lsb < 32768 then ((msb * 256 + lsb : Nat) : Int)
        else ((msb * 256 + lsb : Nat) : Int) - 65536 : Int) : ℚ) / 256 := by
  unfold RTC_GetTemperature_value
  simp only [List.getD_cons_zero, List.getD_cons_succ]
  rw [shiftLeft_8_or msb lsb hl, toInt16_of_lt _ (by omega)]

/-- C7: when the read of the two temperature registers succeeds,
RTC_GetTemperature returns HAL_OK and the value s/256, where s is the signed
16-bit reading of msb*256 + lsb (65536 is subtracted from 32768 upwards); the value is negative when
msb is at least 0x80, and the bytes 19 40 (hex) give 6464/256 = 25.25. -/
theorem C7_RTC_GetTemperature (hi2c : I2C_HandleTypeDef) (hrtc : RTC_Handle) (temperature : ℚ)
    (msb lsb : Nat) (hmsb : hi2c.regs 0x11 % 256 = msb) (hlsb : hi2c.regs 0x12 % 256 = lsb)
    (hok : hi2c.outcome hi2c.log.length = HAL_StatusTypeDef.HAL_OK) :
    (RTC_GetTemperature hi2c hrtc temperature).1 = HAL_StatusTypeDef.HAL_OK ∧
    (RTC_GetTemperature hi2c hrtc temperature).2.1 =
      ((if msb * 256 + lsb < 32768 then ((msb * 256 + lsb : Nat) : Int)
        else ((msb * 256 + lsb : Nat) : Int) - 65536 : Int) : ℚ) / 256 ∧
    (0x80 ≤ msb → (RTC_GetTemperature hi2c hrtc temperature).2.1 < 0) ∧
    (msb = 0x19 → lsb = 0x40 →
      (RTC_GetTemperature hi2c hrtc temperature).2.1 = 6464 / 256 ∧
      (RTC_GetTemperature hi2c hrtc temperature).2.1 = 25.25) := by
  have hm : msb < 256 := by omega
  have hl : lsb < 256 := by omega
  have hval : (RTC_GetTemperature hi2c hrtc temperature).2.1 =
      RTC_GetTemperature_value [msb, lsb] := by
    simp [RTC_GetTemperature, HAL_I2C_Mem_Read, hok, readRegs, DS3231_REG_TEMP_MSB, hmsb, hlsb]
  refine ⟨?_, ?_, ?_, ?_⟩
  · simp [RTC_GetTemperature, HAL_I2C_Mem_Read, hok]
  · rw [hval, RTC_GetTemperature_value_eq msb lsb hm hl]
  · intro hneg
    rw [hval, RTC_GetTemperature_value_eq msb lsb hm hl]
    have h1 : ¬ msb * 256 + lsb < 32768 := by omega
    have h2 : ((msb * 256 + lsb : Nat) : Int) - 65536 < 0 := by omega
    rw [if_neg h1]
    have h3 : (((((msb * 256 + lsb : Nat) : Int) - 65536 : Int)) : ℚ) < 0 := by
      exact_mod_cast h2
    exact div_neg_of_neg_of_pos h3 (by norm_num)
  · intro h19 h40
    subst h19 h40
    rw [hval, RTC_GetTemperature_value_eq _ _ hm hl]
    norm_num

theorem C7_witness :
    (RTC_GetTemperature (tempBus 0x19 0x40) { address := 0xD0 } 0).2.1 = 25.25 :=
  ((C7_RTC_GetTemperature (tempBus 0x19 0x40) { address := 0xD0 } 0 0x19 0x40 rfl rfl rfl).2.2.2
    rfl rfl).2

/-! ## Initialisation -/

set_option maxRecDepth 100000 in
theorem clear_osf_bits : ∀ s, s < 256 →
    (s &&& 0xFFFFFF7F) % 256 = s &&& 0x7F ∧ (s &&& 0x7F) % 256 = s &&& 0x7F ∧
    ((s &&& 0x7F) &&& 0xFFFFFF7F) % 256 = s &&& 0x7F ∧
    (s &&& 0x7F).testBit 7 = false ∧
    (∀ i, i < 7 → (s &&& 0x7F).testBit i = s.testBit i) ∧
    (s &&& 0x80 = 0x80 → s &&& 0x7F = s - 0x80) := by
  decide

/-- C8: when the presence check (3 trials, timeout 100, device address
0x68 << 1) fails, RTC_Init returns HAL_ERROR, the presence check is the only
transaction issued (no register read, no register write) and the register
file is unchanged. -/
theorem C8_RTC_Init_not_ready (hi2c : I2C_HandleTypeDef) (status0 : Nat)
    (hfail : hi2c.outcome hi2c.log.length ≠ HAL_StatusTypeDef.HAL_OK) :
    (RTC_Init hi2c status0).1 = HAL_StatusTypeDef.HAL_ERROR ∧
    (RTC_Init hi2c status0).2.2.log = hi2c.log ++ [I2C_Txn.isDeviceReady (0x68 <<< 1) 3 100] ∧
    (RTC_Init hi2c status0).2.2.regs = hi2c.regs := by
  simp [RTC_Init, HAL_I2C_IsDeviceReady, hfail, DS3231_I2C_ADDR]

theorem C8_witness :
    (RTC_Init (absentBus [0x88]) 0).1 = HAL_StatusTypeDef.HAL_ERROR ∧
    (RTC_Init (absentBus [0x88]) 0).2.2.log = [I2C_Txn.isDeviceReady 0xD0 3 100] ∧
    (RTC_Init (absentBus [0x88]) 0).2.2.regs = (absentBus [0x88]).regs :=
  C8_RTC_Init_not_ready (absentBus [0x88]) 0 (by decide)

/-- The register written by a one-byte write. -/
theorem writeRegs_single (regs : Nat → Nat) (a v : Nat) : writeRegs regs a [v] a = v := by
  simp [writeRegs]

/-- One run of RTC_Init on a bus where the presence check, the status read and
the status write succeed stores the status byte with bit 7 cleared. -/
theorem RTC_Init_status (hi2c : I2C_HandleTypeDef) (status0 : Nat)
    (h0 : hi2c.outcome hi2c.log.length = HAL_StatusTypeDef.HAL_OK)
    (h1 : hi2c.outcome (hi2c.log.length + 1) = HAL_StatusTypeDef.HAL_OK)
    (h2 : hi2c.outcome (hi2c.log.length + 2) = HAL_StatusTypeDef.HAL_OK) :
    (RTC_Init hi2c status0).2.2.regs 0x0F = (hi2c.regs 0x0F % 256 &&& 0xFFFFFF7F) % 256 ∧
    (RTC_Init hi2c status0).2.2.log.length = hi2c.log.length + 3 ∧
    (RTC_Init hi2c status0).2.2.outcome = hi2c.outcome ∧
    (RTC_Init hi2c status0).1 = HAL_StatusTypeDef.HAL_OK := by
  simp [RTC_Init, HAL_I2C_IsDeviceReady, HAL_I2C_Mem_Read, HAL_I2C_Mem_Write, h0, h1, h2,
    readRegs, DS3231_REG_STATUS, writeRegs_single]

/-- C9: for every status byte s with bit 7 set, when the presence check, the
status read and the status write succeed, the status register 0x0F holds
s & 0x7F after RTC_Init: bit 7 is clear and bits 0..6 are those of s.  A
second run of RTC_Init (again with all three transactions succeeding) leaves
that value in the status register. -/
theorem C9_RTC_Init_clears_osf (hi2c : I2C_HandleTypeDef) (status0 s : Nat)
    (hs : hi2c.regs 0x0F = s) (hbyte : s < 256) (hosf : s &&& 0x80 = 0x80)
    (h0 : hi2c.outcome hi2c.log.length = HAL_StatusTypeDef.HAL_OK)
    (h1 : hi2c.outcome (hi2c.log.length + 1) = HAL_StatusTypeDef.HAL_OK)
    (h2 : hi2c.outcome (hi2c.log.length + 2) = HAL_StatusTypeDef.HAL_OK) :
    (RTC_Init hi2c status0).1 = HAL_StatusTypeDef.HAL_OK ∧
    (RTC_Init hi2c status0).2.2.regs 0x0F = s &&& 0x7F ∧
    (RTC_Init hi2c status0).2.2.regs 0x0F = s - 0x80 ∧
    ((RTC_Init hi2c status0).2.2.regs 0x0F).testBit 7 = false ∧
    (∀ i, i < 7 → ((RTC_Init hi2c status0).2.2.regs 0x0F).testBit i = s.testBit i) ∧
    (∀ status1 : Nat,
      hi2c.outcome (hi2c.log.length + 3) = HAL_StatusTypeDef.HAL_OK →
      hi2c.outcome (hi2c.log.length + 4) = HAL_StatusTypeDef.HAL_OK →
      hi2c.outcome (hi2c.log.length + 5) = HAL_StatusTypeDef.HAL_OK →
      (RTC_Init (RTC_Init hi2c status0).2.2 status1).1 = HAL_StatusTypeDef.HAL_OK ∧
      (RTC_Init (RTC_Init hi2c status0).2.2 status1).2.2.regs 0x0F = s &&& 0x7F) := by
  obtain ⟨r1, l1, o1, st1⟩ := RTC_Init_status hi2c status0 h0 h1 h2
  obtain ⟨c1, c2, c3, c4, c5, c6⟩ := clear_osf_bits s hbyte
  have hfirst : (RTC_Init hi2c status0).2.2.regs 0x0F = s &&& 0x7F := by
    rw [r1, hs, Nat.mod_eq_of_lt hbyte, c1]
  refine ⟨st1, hfirst, ?_, ?_, ?_, ?_⟩
  · rw [hfirst]
    exact c6 hosf
  · rw [hfirst]
    exact c4
  · intro i hi
    rw [hfirst]
    exact c5 i hi
  · intro status1 h3 h4 h5
    obtain ⟨r2, _, _, st2⟩ := RTC_Init_status (RTC_Init hi2c status0).2.2 status1
      (by rw [o1, l1]; exact h3) (by rw [o1, l1]; exact h4) (by rw [o1, l1]; exact h5)
    refine ⟨st2, ?_⟩
    rw [r2, hfirst, c2, c3]

theorem C9_witness :
    ((RTC_Init (statusBus 0x88) 0).2.2.regs 0x0F = 0x88 &&& 0x7F) ∧
    ((RTC_Init (RTC_Init (statusBus 0x88) 0).2.2 0).2.2.regs 0x0F = 0x88 &&& 0x7F) :=
  ⟨(C9_RTC_Init_clears_osf (statusBus 0x88) 0 0x88 rfl (by decide) (by decide) rfl rfl rfl).2.1,
   ((C9_RTC_Init_clears_osf (statusBus 0x88) 0 0x88 rfl (by decide) (by decide)
      rfl rfl rfl).2.2.2.2.2 0 rfl rfl rfl).2⟩

/-! ## Day names -/

/-- C10: RTC_GetDayName gives Sunday .. Saturday for 1 .. 7 and Unknown for
every other 8-bit argument, among them 0 and 8; the access to DAY_NAMES is
always within the table. -/
theorem C10_RTC_GetDayName (n : Nat) (hn : n < 256) :
    RTC_GetDayName 1 = some "Sunday" ∧ RTC_GetDayName 2 = some "Monday" ∧
    RTC_GetDayName 3 = some "Tuesday" ∧ RTC_GetDayName 4 = some "Wednesday" ∧
    RTC_GetDayName 5 = some "Thursday" ∧ RTC_GetDayName 6 = some "Friday" ∧
    RTC_GetDayName 7 = some "Saturday" ∧
    RTC_GetDayName 0 = some "Unknown" ∧ RTC_GetDayName 8 = some "Unknown" ∧
    (¬ (1 ≤ n ∧ n ≤ 7) → RTC_GetDayName n = some "Unknown") ∧
    (1 ≤ n ∧ n ≤ 7 → (n + 4294967296 - 1) % 4294967296 < DAY_NAMES.length) ∧
    RTC_GetDayName n ≠ none := by
  refine ⟨rfl, rfl, rfl, rfl, rfl, rfl, rfl, rfl, rfl, ?_, ?_, ?_⟩
  · intro h
    simp [RTC_GetDayName, h]
  · intro h
    simp only [DAY_NAMES, List.length_cons, List.length_nil]
    omega
  · by_cases h : 1 ≤ n ∧ n ≤ 7
    · have hlen : (n + 4294967296 - 1) % 4294967296 < DAY_NAMES.length := by
        simp only [DAY_NAMES, List.length_cons, List.length_nil]
        omega
      unfold RTC_GetDayName
      rw [if_pos h]
      intro hnone
      rw [List.getElem?_eq_none_iff] at hnone
      omega
    · simp [RTC_GetDayName, h]

theorem C10_witness : RTC_GetDayName 200 = some "Unknown" :=
  (C10_RTC_GetDayName 200 (by decide)).2.2.2.2.2.2.2.2.2.1 (by decide)

/-! ## Failure of the transport -/

/-- C11: when the transport read fails, RTC_GetDateTime returns a failure
result and the DateTime of the caller is exactly what it was before the call;
likewise RTC_GetTemperature returns a failure result and the temperature of
the caller is unmodified. -/
theorem C11_read_failure_no_partial_result (hi2c : I2C_HandleTypeDef) (hrtc : RTC_Handle)
    (datetime : RTC_DateTime) (temperature : ℚ)
    (hfail : hi2c.outcome hi2c.log.length ≠ HAL_StatusTypeDef.HAL_OK) :
    (RTC_GetDateTime hi2c hrtc datetime).1 ≠ HAL_StatusTypeDef.HAL_OK ∧
    (RTC_GetDateTime hi2c hrtc datetime).2.1 = datetime ∧
    (RTC_GetTemperature hi2c hrtc temperature).1 ≠ HAL_StatusTypeDef.HAL_OK ∧
    (RTC_GetTemperature hi2c hrtc temperature).2.1 = temperature := by
  simp [RTC_GetDateTime, RTC_GetTemperature, HAL_I2C_Mem_Read, hfail]

theorem C11_witness :
    (RTC_GetDateTime (absentBus [0x30, 0x45, 0x12, 0x03, 0x15, 0x06, 0x24]) { address := 0xD0 }
        (RTC_DateTime.mk 1 2 3 4 5 6 2007)).2.1 = RTC_DateTime.mk 1 2 3 4 5 6 2007 :=
  (C11_read_failure_no_partial_result (absentBus [0x30, 0x45, 0x12, 0x03, 0x15, 0x06, 0x24])
    { address := 0xD0 } (RTC_DateTime.mk 1 2 3 4 5 6 2007) 0 (by decide)).2.1

/-- The buffer that RTC_SetDateTime fills has 7 bytes. -/
theorem RTC_SetDateTime_data_length (datetime : RTC_DateTime) :
    (RTC_SetDateTime_data datetime).length = 7 := by
  simp [RTC_SetDateTime_data]

/-- The status of a write transaction is the one the transport gives. -/
theorem HAL_I2C_Mem_Write_status (hi2c : I2C_HandleTypeDef) (a m s : Nat) (d : List Nat)
    (n t : Nat) :
    (HAL_I2C_Mem_Write hi2c a m s d n t).1 = hi2c.outcome hi2c.log.length := by
  by_cases h : hi2c.outcome hi2c.log.length = HAL_StatusTypeDef.HAL_OK <;>
    simp [HAL_I2C_Mem_Write, h]

/-- C12: with a handle set up by RTC_Init, RTC_SetDateTime issues exactly one
transaction, a write of its 7 data bytes at register 0x00 to the device address
0x68 << 1 with timeout 100, and it returns the status that the transport gives
to this write, whatever it is. -/
theorem C12_RTC_SetDateTime_one_write (hi2c0 : I2C_HandleTypeDef) (status0 : Nat)
    (hi2c : I2C_HandleTypeDef) (datetime : RTC_DateTime) :
    (RTC_SetDateTime hi2c (RTC_Init hi2c0 status0).2.1 datetime).2.log =
      hi2c.log ++ [I2C_Txn.memWrite (0x68 <<< 1) 0x00 1 (RTC_SetDateTime_data datetime) 100] ∧
    (RTC_SetDateTime_data datetime).length = 7 ∧
    (RTC_SetDateTime hi2c (RTC_Init hi2c0 status0).2.1 datetime).1 =
      hi2c.outcome hi2c.log.length := by
  have haddr : (RTC_Init hi2c0 status0).2.1.address = 0x68 <<< 1 := by
    by_cases h : hi2c0.outcome hi2c0.log.length = HAL_StatusTypeDef.HAL_OK <;>
      simp [RTC_Init, HAL_I2C_IsDeviceReady, h, DS3231_I2C_ADDR]
  have hlen := RTC_SetDateTime_data_length datetime
  refine ⟨?_, hlen, ?_⟩
  · rw [RTC_SetDateTime, HAL_I2C_Mem_Write_log, haddr]
    simp [DS3231_REG_SECONDS, List.take_of_length_le (Nat.le_of_eq hlen)]
  · rw [RTC_SetDateTime, HAL_I2C_Mem_Write_status]

/-! ## Years outside 2000..2099 -/

set_option maxRecDepth 100000 in
theorem BCD_roundtrip_all : ∀ d, d < 256 →
    (BCD_To_Decimal (Decimal_To_BCD d) = d ↔ d ≤ 159) ∧
    (100 ≤ d → d ≤ 159 →
      10 ≤ Decimal_To_BCD d >>> 4 ∧ Decimal_To_BCD d >>> 4 ≤ 15 ∧
      BCD_To_Decimal (Decimal_To_BCD d) = d) ∧
    (160 ≤ d → BCD_To_Decimal (Decimal_To_BCD d) = d - 160) ∧
    BCD_To_Decimal (Decimal_To_BCD d) ≤ 159 := by
  decide

/-- The year that RTC_GetDateTime decodes from the bytes of RTC_SetDateTime. -/
theorem decode_encode_year (datetime : RTC_DateTime) :
    (RTC_GetDateTime_decode (RTC_SetDateTime_data datetime)).year =
      BCD_To_Decimal (Decimal_To_BCD (toUInt8 ((datetime.year : Int) - 2000))) + 2000 := by
  have hb : toUInt8 ((datetime.year : Int) - 2000) < 256 := by
    unfold toUInt8
    omega
  have h := (BCD_roundtrip_all _ hb).2.2.2
  simp only [RTC_GetDateTime_decode, RTC_SetDateTime_data, List.getD_cons_zero,
    List.getD_cons_succ]
  omega

/-- C13 as stated fails: the year 2100 is outside 2000..2099, the other fields
are in their ranges, and the year decoded from the written bytes is 2100. -/
theorem C13_counterexample :
    ¬ (2000 ≤ (RTC_DateTime.mk 30 45 12 3 15 6 2100).year ∧
        (RTC_DateTime.mk 30 45 12 3 15 6 2100).year ≤ 2099) ∧
    (RTC_GetDateTime_decode (RTC_SetDateTime_data (RTC_DateTime.mk 30 45 12 3 15 6 2100))).year =
      (RTC_DateTime.mk 30 45 12 3 15 6 2100).year := by
  decide

/-- C13, amended: for every DateTime whose year is outside 2000..2159, the year
decoded (as RTC_GetDateTime does) from the bytes that RTC_SetDateTime writes
differs from the original year (it lies in 2000..2159); for the years
2100..2159 the year byte that RTC_SetDateTime writes has a high nibble in
0xA..0xF (not a BCD digit) and the year is decoded back to itself. -/
theorem C13_year_outside_range (datetime : RTC_DateTime)
    (hout : datetime.year < 2000 ∨ 2159 < datetime.year) :
    (RTC_GetDateTime_decode (RTC_SetDateTime_data datetime)).year ≠ datetime.year ∧
    2000 ≤ (RTC_GetDateTime_decode (RTC_SetDateTime_data datetime)).year ∧
    (RTC_GetDateTime_decode (RTC_SetDateTime_data datetime)).year ≤ 2159 ∧
    (∀ other : RTC_DateTime, 2100 ≤ other.year → other.year ≤ 2159 →
      (RTC_SetDateTime_data other).getD 6 0 = Decimal_To_BCD (other.year - 2000) ∧
      0xA ≤ (RTC_SetDateTime_data other).getD 6 0 >>> 4 ∧
      (RTC_SetDateTime_data other).getD 6 0 >>> 4 ≤ 0xF ∧
      (RTC_SetDateTime_data other).getD 6 0 < 256 ∧
      (RTC_GetDateTime_decode (RTC_SetDateTime_data other)).year = other.year) := by
  have hb : toUInt8 ((datetime.year : Int) - 2000) < 256 := by
    unfold toUInt8
    omega
  have h := (BCD_roundtrip_all _ hb).2.2.2
  refine ⟨?_, ?_, ?_, ?_⟩
  · rw [decode_encode_year]
    omega
  · rw [decode_encode_year]
    omega
  · rw [decode_encode_year]
    omega
  · intro other hlo hhi
    have e := toUInt8_sub_2000 other.year (by omega) (by omega)
    have r := (BCD_roundtrip_all (other.year - 2000) (by omega)).2.1 (by omega) (by omega)
    have hbyte : (RTC_SetDateTime_data other).getD 6 0 = Decimal_To_BCD (other.year - 2000) := by
      simp only [RTC_SetDateTime_data, List.getD_cons_zero, List.getD_cons_succ, e]
    have hlt : Decimal_To_BCD (other.year - 2000) < 256 := by
      unfold Decimal_To_BCD
      exact Nat.mod_lt _ (by decide)
    refine ⟨hbyte, ?_, ?_, ?_, ?_⟩
    · rw [hbyte]
      exact r.1
    · rw [hbyte]
      exact r.2.1
    · rw [hbyte]
      exact hlt
    · rw [decode_encode_year, e, r.2.2]
      omega

theorem C13_witness :
    (RTC_GetDateTime_decode (RTC_SetDateTime_data (RTC_DateTime.mk 30 45 12 3 15 6 2160))).year ≠
      2160 ∧
    (RTC_SetDateTime_data (RTC_DateTime.mk 30 45 12 3 15 6 2159)).getD 6 0 >>> 4 ≤ 0xF ∧
    0xA ≤ (RTC_SetDateTime_data (RTC_DateTime.mk 30 45 12 3 15 6 2100)).getD 6 0 >>> 4 :=
  ⟨(C13_year_outside_range (RTC_DateTime.mk 30 45 12 3 15 6 2160) (by decide)).1,
   ((C13_year_outside_range (RTC_DateTime.mk 30 45 12 3 15 6 2160) (by decide)).2.2.2
      (RTC_DateTime.mk 30 45 12 3 15 6 2159) (by decide) (by decide)).2.2.1,
   ((C13_year_outside_range (RTC_DateTime.mk 30 45 12 3 15 6 2160) (by decide)).2.2.2
      (RTC_DateTime.mk 30 45 12 3 15 6 2100) (by decide) (by decide)).2.1⟩

/-! ## Transactions of RTC_Init -/

/-- C14, the code at the failing inputs: the presence check succeeds and the
status read (first bus) or the status write (second bus) fails with HAL_ERROR,
yet RTC_Init returns HAL_OK. -/
theorem C14_RTC_Init_ignores_failure :
    (scriptBus 0x88 [HAL_StatusTypeDef.HAL_OK, HAL_StatusTypeDef.HAL_ERROR]).outcome 1 =
      HAL_StatusTypeDef.HAL_ERROR ∧
    (RTC_Init (scriptBus 0x88 [HAL_StatusTypeDef.HAL_OK, HAL_StatusTypeDef.HAL_ERROR]) 0x55).1 =
      HAL_StatusTypeDef.HAL_OK ∧
    (scriptBus 0x88 [HAL_StatusTypeDef.HAL_OK, HAL_StatusTypeDef.HAL_OK,
      HAL_StatusTypeDef.HAL_ERROR]).outcome 2 = HAL_StatusTypeDef.HAL_ERROR ∧
    (RTC_Init (scriptBus 0x88 [HAL_StatusTypeDef.HAL_OK, HAL_StatusTypeDef.HAL_OK,
      HAL_StatusTypeDef.HAL_ERROR]) 0x55).1 = HAL_StatusTypeDef.HAL_OK := by
  decide

/-- C15 as stated fails: the status byte 0x08 has bit 7 clear, all transactions
succeed, and RTC_Init still issues a write of the status register. -/
theorem C15_counterexample :
    0x08 &&& 0x80 = 0 ∧
    (RTC_Init (statusBus 0x08) 0).2.2.log =
      [I2C_Txn.isDeviceReady 0xD0 3 100, I2C_Txn.memRead 0xD0 0x0F 1 1 100,
       I2C_Txn.memWrite 0xD0 0x0F 1 [0x08] 100] := by
  decide

/-- C15, amended: after a successful presence check RTC_Init issues exactly one
read of the status register followed by exactly one write of the status
register, whether or not bit 7 of the value read is set; when the read
succeeds the byte written is the value read with bit 7 cleared, which is the
value read itself when bit 7 was already clear. -/
theorem C15_RTC_Init_transactions (hi2c : I2C_HandleTypeDef) (status0 : Nat)
    (h0 : hi2c.outcome hi2c.log.length = HAL_StatusTypeDef.HAL_OK) :
    ∃ v : Nat,
      (RTC_Init hi2c status0).2.2.log =
        hi2c.log ++ [I2C_Txn.isDeviceReady (0x68 <<< 1) 3 100,
          I2C_Txn.memRead (0x68 <<< 1) 0x0F 1 1 100,
          I2C_Txn.memWrite (0x68 <<< 1) 0x0F 1 [v] 100] ∧
      (hi2c.outcome (hi2c.log.length + 1) = HAL_StatusTypeDef.HAL_OK →
        v = hi2c.regs 0x0F % 256 &&& 0x7F ∧
        (hi2c.regs 0x0F % 256 &&& 0x80 = 0 → v = hi2c.regs 0x0F % 256)) := by
  have hc := clear_osf_bits (hi2c.regs 0x0F % 256) (Nat.mod_lt _ (by decide))
  have hk : ∀ s, s < 256 → s &&& 0x80 = 0 → s &&& 0x7F = s := fun s hs hz =>
    (and_mask_of_clear s hs).1 hz
  by_cases h1 : hi2c.outcome (hi2c.log.length + 1) = HAL_StatusTypeDef.HAL_OK
  · refine ⟨hi2c.regs 0x0F % 256 &&& 0x7F, ?_, fun _ => ⟨rfl, fun hz => ?_⟩⟩
    · simp [RTC_Init, HAL_I2C_IsDeviceReady, HAL_I2C_Mem_Read, HAL_I2C_Mem_Write_log, h0, h1,
        readRegs, DS3231_REG_STATUS, DS3231_I2C_ADDR, hc.1]
    · exact hk _ (Nat.mod_lt _ (by decide)) hz
  · refine ⟨(status0 &&& 0xFFFFFF7F) % 256, ?_, fun h => absurd h h1⟩
    simp [RTC_Init, HAL_I2C_IsDeviceReady, HAL_I2C_Mem_Read, HAL_I2C_Mem_Write_log, h0, h1,
      DS3231_REG_STATUS, DS3231_I2C_ADDR]

theorem C15_witness :
    ∃ v : Nat,
      (RTC_Init (statusBus 0x08) 0).2.2.log =
        [] ++ [I2C_Txn.isDeviceReady (0x68 <<< 1) 3 100,
          I2C_Txn.memRead (0x68 <<< 1) 0x0F 1 1 100,
          I2C_Txn.memWrite (0x68 <<< 1) 0x0F 1 [v] 100] ∧
      ((statusBus 0x08).outcome (0 + 1) = HAL_StatusTypeDef.HAL_OK →
        v = (statusBus 0x08).regs 0x0F % 256 &&& 0x7F ∧
        ((statusBus 0x08).regs 0x0F % 256 &&& 0x80 = 0 → v = (statusBus 0x08).regs 0x0F % 256)) :=
  C15_RTC_Init_transactions (statusBus 0x08) 0 rfl

/-! ## The status returned after a failed read -/

/-- C17 as stated fails: the transport gives HAL_TIMEOUT to the read, and
RTC_GetDateTime and RTC_GetTemperature return HAL_ERROR, a different status. -/
theorem C17_counterexample :
    (absentBus []).outcome (absentBus []).log.length = HAL_StatusTypeDef.HAL_TIMEOUT ∧
    (RTC_GetDateTime (absentBus []) { address := 0xD0 } (RTC_DateTime.mk 0 0 0 0 0 0 0)).1 =
      HAL_StatusTypeDef.HAL_ERROR ∧
    (RTC_GetTemperature (absentBus []) { address := 0xD0 } 0).1 = HAL_StatusTypeDef.HAL_ERROR ∧
    HAL_StatusTypeDef.HAL_ERROR ≠ HAL_StatusTypeDef.HAL_TIMEOUT := by
  refine ⟨rfl, rfl, rfl, by decide⟩

/-- C17, amended: when the transport read fails, RTC_GetDateTime and
RTC_GetTemperature return HAL_ERROR for every non-success status that the
transport returns for the read (error, busy or timeout); the status returned
is the one of the transport exactly when that one is HAL_ERROR. -/
theorem C17_read_failure_status (hi2c : I2C_HandleTypeDef) (hrtc : RTC_Handle)
    (datetime : RTC_DateTime) (temperature : ℚ)
    (hfail : hi2c.outcome hi2c.log.length ≠ HAL_StatusTypeDef.HAL_OK) :
    (RTC_GetDateTime hi2c hrtc datetime).1 = HAL_StatusTypeDef.HAL_ERROR ∧
    (RTC_GetTemperature hi2c hrtc temperature).1 = HAL_StatusTypeDef.HAL_ERROR ∧
    ((RTC_GetDateTime hi2c hrtc datetime).1 = hi2c.outcome hi2c.log.length ↔
      hi2c.outcome hi2c.log.length = HAL_StatusTypeDef.HAL_ERROR) ∧
    ((RTC_GetTemperature hi2c hrtc temperature).1 = hi2c.outcome hi2c.log.length ↔
      hi2c.outcome hi2c.log.length = HAL_StatusTypeDef.HAL_ERROR) := by
  have h1 : (RTC_GetDateTime hi2c hrtc datetime).1 = HAL_StatusTypeDef.HAL_ERROR := by
    simp [RTC_GetDateTime, HAL_I2C_Mem_Read, hfail]
  have h2 : (RTC_GetTemperature hi2c hrtc temperature).1 = HAL_StatusTypeDef.HAL_ERROR := by
    simp [RTC_GetTemperature, HAL_I2C_Mem_Read, hfail]
  refine ⟨h1, h2, ?_, ?_⟩
  · rw [h1]
    exact eq_comm
  · rw [h2]
    exact eq_comm

theorem C17_witness :
    (RTC_GetDateTime (scriptBus 0 [HAL_StatusTypeDef.HAL_BUSY]) { address := 0xD0 }
        (RTC_DateTime.mk 0 0 0 0 0 0 0)).1 = HAL_StatusTypeDef.HAL_ERROR :=
  (C17_read_failure_status (scriptBus 0 [HAL_StatusTypeDef.HAL_BUSY]) { address := 0xD0 }
    (RTC_DateTime.mk 0 0 0 0 0 0 0) 0 (by decide)).1

/-! ## Formatting -/

set_option maxRecDepth 100000 in
theorem fmt0d_two : ∀ n, n < 100 → fmt0d 2 n = [digitChar (n / 10), digitChar (n % 10)] := by
  decide

set_option maxRecDepth 100000 in
theorem fmt0d_four : ∀ n, n < 100 →
    fmt0d 4 (2000 + n) = ['2', '0', digitChar (n / 10), digitChar (n % 10)] := by
  decide

/-- C16: for every DateTime with hours in 0..23 and minutes, seconds in 0..59
(whatever its other fields) RTC_FormatTime writes the 8 characters HH:MM:SS,
each field two decimal digits with a leading zero where needed; for every
DateTime with day of month in 1..31, month in 1..12 and year in 2000..2099
(whatever its other fields) RTC_FormatDate writes the 10 characters
DD/MM/YYYY; 9:05:03 gives 09:05:03 and 1/2/2025 gives 01/02/2025. -/
theorem C16_RTC_Format (datetime : RTC_DateTime) :
    (datetime.hours ≤ 23 → datetime.minutes ≤ 59 → datetime.seconds ≤ 59 →
      RTC_FormatTime datetime =
        String.mk [digitChar (datetime.hours / 10), digitChar (datetime.hours % 10), ':',
          digitChar (datetime.minutes / 10), digitChar (datetime.minutes % 10), ':',
          digitChar (datetime.seconds / 10), digitChar (datetime.seconds % 10)] ∧
      (RTC_FormatTime datetime).length = 8) ∧
    (1 ≤ datetime.date ∧ datetime.date ≤ 31 → 1 ≤ datetime.month ∧ datetime.month ≤ 12 →
      2000 ≤ datetime.year ∧ datetime.year ≤ 2099 →
      RTC_FormatDate datetime =
        String.mk [digitChar (datetime.date / 10), digitChar (datetime.date % 10), '/',
          digitChar (datetime.month / 10), digitChar (datetime.month % 10), '/',
          '2', '0', digitChar ((datetime.year - 2000) / 10), digitChar (datetime.year % 10)] ∧
      (RTC_FormatDate datetime).length = 10) ∧
    (∀ k, k ≤ 9 → digitChar k = Nat.digitChar k ∧ (digitChar k).isDigit = true) ∧
    (∀ weekday date month year : Nat,
      RTC_FormatTime (RTC_DateTime.mk 3 5 9 weekday date month year) = "09:05:03") ∧
    (∀ seconds minutes hours weekday : Nat,
      RTC_FormatDate (RTC_DateTime.mk seconds minutes hours weekday 1 2 2025) = "01/02/2025") := by
  refine ⟨?_, ?_, by decide, ?_, ?_⟩
  · intro hh hm hs
    have e1 := fmt0d_two datetime.hours (by omega)
    have e2 := fmt0d_two datetime.minutes (by omega)
    have e3 := fmt0d_two datetime.seconds (by omega)
    have ht : RTC_FormatTime datetime =
        String.mk [digitChar (datetime.hours / 10), digitChar (datetime.hours % 10), ':',
          digitChar (datetime.minutes / 10), digitChar (datetime.minutes % 10), ':',
          digitChar (datetime.seconds / 10), digitChar (datetime.seconds % 10)] := by
      simp [RTC_FormatTime, e1, e2, e3]
    refine ⟨ht, ?_⟩
    rw [ht]
    rfl
  · intro hd hmo hy
    have e4 := fmt0d_two datetime.date (by omega)
    have e5 := fmt0d_two datetime.month (by omega)
    have e6 := fmt0d_four (datetime.year - 2000) (by omega)
    have e7 : 2000 + (datetime.year - 2000) = datetime.year := by omega
    have e8 : (datetime.year - 2000) % 10 = datetime.year % 10 := by omega
    rw [e7, e8] at e6
    have hdte : RTC_FormatDate datetime =
        String.mk [digitChar (datetime.date / 10), digitChar (datetime.date % 10), '/',
          digitChar (datetime.month / 10), digitChar (datetime.month % 10), '/',
          '2', '0', digitChar ((datetime.year - 2000) / 10), digitChar (datetime.year % 10)] := by
      simp [RTC_FormatDate, e4, e5, e6]
    refine ⟨hdte, ?_⟩
    rw [hdte]
    rfl
  · intro weekday date month year
    have h : RTC_FormatTime (RTC_DateTime.mk 3 5 9 weekday date month year) =
        RTC_FormatTime (RTC_DateTime.mk 3 5 9 0 0 0 0) := rfl
    rw [h]
    decide
  · intro seconds minutes hours weekday
    have h : RTC_FormatDate (RTC_DateTime.mk seconds minutes hours weekday 1 2 2025) =
        RTC_FormatDate (RTC_DateTime.mk 0 0 0 0 1 2 2025) := rfl
    rw [h]
    decide

theorem C16_witness :
    RTC_FormatTime (RTC_DateTime.mk 59 0 23 0 0 0 0) = "23:00:59" ∧
    RTC_FormatDate (RTC_DateTime.mk 99 99 99 0 31 12 2099) = "31/12/2099" :=
  ⟨((C16_RTC_Format (RTC_DateTime.mk 59 0 23 0 0 0 0)).1 (by decide) (by decide)
      (by decide)).1,
   ((C16_RTC_Format (RTC_DateTime.mk 99 99 99 0 31 12 2099)).2.1 (by decide) (by decide)
      (by decide)).1⟩

/-! ## Behaviour outside the BCD range -/

/-- C18: for every 8-bit d, BCD_To_Decimal (Decimal_To_BCD d) = d exactly when
d is at most 159; for d in 100..159 the high nibble of the BCD byte is 10..15
and the round trip gives d; for d in 160..255 the round trip gives d - 160. -/
theorem C18_BCD_roundtrip_8bit (d : Nat) (hd : d < 256) :
    (BCD_To_Decimal (Decimal_To_BCD d) = d ↔ d ≤ 159) ∧
    (100 ≤ d → d ≤ 159 →
      10 ≤ Decimal_To_BCD d >>> 4 ∧ Decimal_To_BCD d >>> 4 ≤ 15 ∧
      BCD_To_Decimal (Decimal_To_BCD d) = d) ∧
    (160 ≤ d → (d / 10) <<< 4 ≥ 256 ∧ BCD_To_Decimal (Decimal_To_BCD d) = d - 160) := by
  obtain ⟨h1, h2, h3, _⟩ := BCD_roundtrip_all d hd
  refine ⟨h1, h2, fun h => ⟨?_, h3 h⟩⟩
  rw [Nat.shiftLeft_eq]
  omega

theorem C18_witness :
    BCD_To_Decimal (Decimal_To_BCD 255) = 255 - 160 ∧
    BCD_To_Decimal (Decimal_To_BCD 159) = 159 :=
  ⟨((C18_BCD_roundtrip_8bit 255 (by decide)).2.2 (by decide)).2,
   ((C18_BCD_roundtrip_8bit 159 (by decide)).2.1 (by decide) (by decide)).2.2⟩

set_option maxRecDepth 100000 in
theorem decode_bounds : ∀ b, b < 256 →
    BCD_To_Decimal b = (b >>> 4) * 10 + (b &&& 0x0F) ∧ BCD_To_Decimal b ≤ 165 ∧
    BCD_To_Decimal (b &&& 0x7F) ≤ 85 ∧ BCD_To_Decimal (b &&& 0x3F) ≤ 45 ∧
    BCD_To_Decimal (b &&& 0x1F) ≤ 25 ∧ b &&& 0x07 ≤ 7 ∧
    b &&& 0x7F < 256 ∧ b &&& 0x3F < 256 ∧ b &&& 0x1F < 256 := by
  decide

/-- C19: for every 7-byte register image, well-formed or not, the decode of
RTC_GetDateTime does not wrap around 8 bits (BCD_To_Decimal b is the exact
integer (b >> 4) * 10 + (b & 0x0F), at most 165, for every byte b) and the
decoded fields satisfy seconds ≤ 85, minutes ≤ 85, hours ≤ 45, weekday ≤ 7,
day of month ≤ 45, month ≤ 25 and 2000 ≤ year ≤ 2165. -/
theorem C19_decode_bounds (r0 r1 r2 r3 r4 r5 r6 : Nat)
    (h0 : r0 < 256) (h1 : r1 < 256) (h2 : r2 < 256) (h3 : r3 < 256) (h4 : r4 < 256)
    (h5 : r5 < 256) (h6 : r6 < 256) :
    (∀ b, b < 256 → BCD_To_Decimal b = (b >>> 4) * 10 + (b &&& 0x0F) ∧
      BCD_To_Decimal b ≤ 165) ∧
    (RTC_GetDateTime_decode [r0, r1, r2, r3, r4, r5, r6]).seconds ≤ 85 ∧
    (RTC_GetDateTime_decode [r0, r1, r2, r3, r4, r5, r6]).minutes ≤ 85 ∧
    (RTC_GetDateTime_decode [r0, r1, r2, r3, r4, r5, r6]).hours ≤ 45 ∧
    (RTC_GetDateTime_decode [r0, r1, r2, r3, r4, r5, r6]).day ≤ 7 ∧
    (RTC_GetDateTime_decode [r0, r1, r2, r3, r4, r5, r6]).date ≤ 45 ∧
    (RTC_GetDateTime_decode [r0, r1, r2, r3, r4, r5, r6]).month ≤ 25 ∧
    2000 ≤ (RTC_GetDateTime_decode [r0, r1, r2, r3, r4, r5, r6]).year ∧
    (RTC_GetDateTime_decode [r0, r1, r2, r3, r4, r5, r6]).year ≤ 2165 ∧
    (RTC_GetDateTime_decode [r0, r1, r2, r3, r4, r5, r6]).year =
      (r6 >>> 4) * 10 + (r6 &&& 0x0F) + 2000 := by
  have b0 := decode_bounds r0 h0
  have b1 := decode_bounds r1 h1
  have b2 := decode_bounds r2 h2
  have b3 := decode_bounds r3 h3
  have b4 := decode_bounds r4 h4
  have b5 := decode_bounds r5 h5
  have b6 := decode_bounds r6 h6
  simp only [RTC_GetDateTime_decode, List.getD_cons_zero, List.getD_cons_succ]
  refine ⟨fun b hb => ⟨(decode_bounds b hb).1, (decode_bounds b hb).2.1⟩, b0.2.2.1, b1.2.2.1,
    b2.2.2.2.1, b3.2.2.2.2.2.1, b4.2.2.2.1, b5.2.2.2.2.1, ?_, ?_, ?_⟩ <;> omega

theorem C19_witness :
    (RTC_GetDateTime_decode [0xFF, 0xFF, 0xFF, 0xFF, 0xFF, 0xFF, 0xFF]).year ≤ 2165 :=
  (C19_decode_bounds 0xFF 0xFF 0xFF 0xFF 0xFF 0xFF 0xFF (by decide) (by decide) (by decide)
    (by decide) (by decide) (by decide) (by decide)).2.2.2.2.2.2.2.2.1

end DS3231
